import Mathlib

/-!
# FatFs low level disk I/O glue (diskio.c) over an SD/SPI block driver

A shallow embedding of `Middlewares/Third_Party/FatFs/src/diskio.c`.

* The file-local global `Stat` and the driver's own state are threaded
  explicitly through a `World`.
* Every call the glue makes into the SD/SPI driver is appended to the `calls`
  field of the `World`, so that statements such as "the block transfer is not
  requested" can be expressed.
* Machine integers are natural numbers, with an explicit reduction where the C
  arithmetic is done at a fixed width (`BYTE` = 8 bits, `WORD` = 16 bits,
  `DWORD` = 32 bits, `uint64_t` = 64 bits).
-/

namespace FatFsGlue

/-! ## Constants -/

/-- The macro `BLOCK_SIZE` of diskio.c (line 42). -/
def BLOCK_SIZE : Nat := 512

/-- Modelled from the spec: diskio.h of FatFs is not among the sources; the
status bit NOINIT of `DSTATUS` has the value FatFs gives it, 0x01. -/
def STA_NOINIT : Nat := 0x01

/-- Modelled from the spec: diskio.h of FatFs is not among the sources; the
status bit NODISK of `DSTATUS` (FatFs value 0x02). -/
def STA_NODISK : Nat := 0x02

/-- Modelled from the spec: diskio.h of FatFs is not among the sources; the
status bit PROTECT of `DSTATUS` (FatFs value 0x04). -/
def STA_PROTECT : Nat := 0x04

/-- Modelled from the spec: diskio.h of FatFs is not among the sources; the
result enumeration {OK, ERROR, NOT_READY, PARAM_ERROR} of the spec, with the
write-protect member FatFs also declares. -/
inductive DRESULT
  | RES_OK
  | RES_ERROR
  | RES_WRPRT
  | RES_NOTRDY
  | RES_PARERR
  deriving DecidableEq, Repr

/-- Modelled from the spec: diskio.h of FatFs is not among the sources; the
command code of sync (FatFs value 0). -/
def CTRL_SYNC : Nat := 0

/-- Modelled from the spec: diskio.h of FatFs is not among the sources; the
command code of get-sector-count (FatFs value 1). -/
def GET_SECTOR_COUNT : Nat := 1

/-- Modelled from the spec: diskio.h of FatFs is not among the sources; the
command code of get-sector-size (FatFs value 2). -/
def GET_SECTOR_SIZE : Nat := 2

/-- Modelled from the spec: diskio.h of FatFs is not among the sources; the
command code of get-erase-block-size (FatFs value 3). -/
def GET_BLOCK_SIZE : Nat := 3

/-! ## The external SD/SPI driver -/

/-- Modelled from the spec: SD_SPI.h and the SD/SPI driver behind it are not
among the sources. The driver is a parameter: its two constants `MSD_OK` and
`SD_PRESENT`, its global `SdStatus` (read out of the driver state) and its
functions, each an arbitrary function of an arbitrary driver state `σ`.
`SD_ReadBlocks` and `SD_WriteBlocks` take the buffer, the byte offset, the
block size and the block count; `SD_GetCardInfo` yields the `CardCapacity`
field of the structure it fills. -/
structure Driver (σ : Type) where
  MSD_OK : Nat
  SD_PRESENT : Nat
  SdStatus : σ → Nat
  SD_Status : σ → σ
  SD_Init : σ → σ × Nat
  SD_GetStatus : σ → σ × Nat
  SD_ReadBlocks : σ → List Nat → Nat → Nat → Nat → σ × List Nat × Nat
  SD_WriteBlocks : σ → List Nat → Nat → Nat → Nat → σ × Nat
  SD_GetCardInfo : σ → σ × Nat

/-- A call of the glue into the driver, with the scalar arguments passed. -/
inductive Call
  | SD_Status
  | SD_Init
  | SD_GetStatus
  | SD_ReadBlocks (addr size count : Nat)
  | SD_WriteBlocks (addr size count : Nat)
  | SD_GetCardInfo
  deriving DecidableEq, Repr

/-- The state the glue runs in: the global `Stat` of diskio.c (line 44), the
state of the driver, and the driver calls made so far, oldest first. -/
structure World (σ : Type) where
  Stat : Nat
  drv : σ
  calls : List Call

variable {σ : Type}

/-- The statement `SD_Status();`. -/
def call_SD_Status (D : Driver σ) (w : World σ) : World σ :=
  { w with drv := D.SD_Status w.drv, calls := w.calls ++ [Call.SD_Status] }

/-- The call `SD_Init()`: the world after it and the code returned. -/
def call_SD_Init (D : Driver σ) (w : World σ) : World σ × Nat :=
  ({ w with drv := (D.SD_Init w.drv).1, calls := w.calls ++ [Call.SD_Init] },
   (D.SD_Init w.drv).2)

/-- The call `SD_GetStatus()`: the world after it and the code returned. -/
def call_SD_GetStatus (D : Driver σ) (w : World σ) : World σ × Nat :=
  ({ w with drv := (D.SD_GetStatus w.drv).1, calls := w.calls ++ [Call.SD_GetStatus] },
   (D.SD_GetStatus w.drv).2)

/-- The call `SD_ReadBlocks(buff, addr, size, count)`: the world after it, the
buffer as the driver leaves it, and the code returned. -/
def call_SD_ReadBlocks (D : Driver σ) (buff : List Nat) (addr size count : Nat)
    (w : World σ) : World σ × List Nat × Nat :=
  ({ w with drv := (D.SD_ReadBlocks w.drv buff addr size count).1,
            calls := w.calls ++ [Call.SD_ReadBlocks addr size count] },
   (D.SD_ReadBlocks w.drv buff addr size count).2.1,
   (D.SD_ReadBlocks w.drv buff addr size count).2.2)

/-- The call `SD_WriteBlocks(buff, addr, size, count)`: the world after it and
the code returned. -/
def call_SD_WriteBlocks (D : Driver σ) (buff : List Nat) (addr size count : Nat)
    (w : World σ) : World σ × Nat :=
  ({ w with drv := (D.SD_WriteBlocks w.drv buff addr size count).1,
            calls := w.calls ++ [Call.SD_WriteBlocks addr size count] },
   (D.SD_WriteBlocks w.drv buff addr size count).2)

/-- The call `SD_GetCardInfo(&CardInfo)`: the world after it and the
`CardCapacity` the driver reports. -/
def call_SD_GetCardInfo (D : Driver σ) (w : World σ) : World σ × Nat :=
  ({ w with drv := (D.SD_GetCardInfo w.drv).1, calls := w.calls ++ [Call.SD_GetCardInfo] },
   (D.SD_GetCardInfo w.drv).2)

/-! ## The glue functions -/

/-- The statement `Stat &= ~STA_NOINIT;`: the operands are promoted to a 32-bit
int, the result is stored back into the `BYTE`. -/
def clear_NOINIT (stat : Nat) : Nat :=
  (stat &&& (0xFFFFFFFF - STA_NOINIT)) % 256

/-- The expression `(uint64_t) (sector * BLOCK_SIZE)` of disk_read and
disk_write: the product is formed in the 32-bit type `DWORD` of `sector`, and
only the product is widened to 64 bits. -/
def byte_offset (sector : Nat) : Nat :=
  ((sector * BLOCK_SIZE) % 2 ^ 32) % 2 ^ 64

/-- The function `disk_initialize` (lines 50-70): the world after the call and
the `DSTATUS` returned. -/
def disk_initialize (D : Driver σ) (_pdrv : Nat) (w : World σ) : World σ × Nat :=
  let w1 : World σ := { w with Stat := STA_NOINIT }
  let w2 := call_SD_Status D w1
  if D.SdStatus w2.drv = D.SD_PRESENT then
    let r := call_SD_Init D w2
    if r.2 = D.MSD_OK then
      let w3 : World σ := { r.1 with Stat := clear_NOINIT r.1.Stat }
      (w3, w3.Stat)
    else
      (r.1, r.1.Stat)
  else
    let w3 : World σ := { w2 with Stat := STA_NOINIT }
    (w3, w3.Stat)

/-- The function `disk_status` (lines 72-89): the world after the call and the
`DSTATUS` returned. -/
def disk_status (D : Driver σ) (_pdrv : Nat) (w : World σ) : World σ × Nat :=
  let w1 : World σ := { w with Stat := STA_NOINIT }
  let w2 := call_SD_Status D w1
  if D.SdStatus w2.drv = D.SD_PRESENT then
    let r := call_SD_GetStatus D w2
    if r.2 = D.MSD_OK then
      let w3 : World σ := { r.1 with Stat := clear_NOINIT r.1.Stat }
      (w3, w3.Stat)
    else
      (r.1, r.1.Stat)
  else
    (w2, w2.Stat)

/-- The function `disk_read` (lines 99-122): the world after the call, the
result, and the caller's buffer afterwards. -/
def disk_read (D : Driver σ) (_pdrv : Nat) (buff : List Nat) (sector count : Nat)
    (w : World σ) : World σ × DRESULT × List Nat :=
  let w1 := call_SD_Status D w
  if D.SdStatus w1.drv = D.SD_PRESENT then
    let r := call_SD_ReadBlocks D buff (byte_offset sector) BLOCK_SIZE count w1
    if r.2.2 ≠ D.MSD_OK then
      (r.1, DRESULT.RES_ERROR, r.2.1)
    else
      (r.1, DRESULT.RES_OK, r.2.1)
  else
    (w1, DRESULT.RES_ERROR, buff)

/-- The function `disk_write` (lines 133-155, compiled when `_USE_WRITE == 1`):
the world after the call and the result. -/
def disk_write (D : Driver σ) (_pdrv : Nat) (buff : List Nat) (sector count : Nat)
    (w : World σ) : World σ × DRESULT :=
  let w1 := call_SD_Status D w
  if D.SdStatus w1.drv = D.SD_PRESENT then
    let r := call_SD_WriteBlocks D buff (byte_offset sector) BLOCK_SIZE count w1
    if r.2 ≠ D.MSD_OK then
      (r.1, DRESULT.RES_ERROR)
    else
      (r.1, DRESULT.RES_OK)
  else
    (w1, DRESULT.RES_ERROR)

/-- The function `disk_ioctl` (lines 166-217, compiled when `_USE_IOCTL == 1`):
the world after the call, the result, and the object `buff` points to
afterwards (a `WORD` for GET_SECTOR_SIZE, a `DWORD` for GET_SECTOR_COUNT and
GET_BLOCK_SIZE). The local `res` starts as `RES_ERROR`; the GET_BLOCK_SIZE case
stores its value and breaks without assigning `res`. -/
def disk_ioctl (D : Driver σ) (_pdrv : Nat) (ctrl : Nat) (buff : Nat)
    (w : World σ) : World σ × DRESULT × Nat :=
  if w.Stat &&& STA_NOINIT ≠ 0 then
    (w, DRESULT.RES_NOTRDY, buff)
  else if ctrl = CTRL_SYNC then
    (w, DRESULT.RES_OK, buff)
  else if ctrl = GET_SECTOR_COUNT then
    let w1 := call_SD_Status D w
    if D.SdStatus w1.drv = D.SD_PRESENT then
      let r := call_SD_GetCardInfo D w1
      (r.1, DRESULT.RES_OK, (r.2 / BLOCK_SIZE) % 2 ^ 32)
    else
      (w1, DRESULT.RES_ERROR, buff)
  else if ctrl = GET_SECTOR_SIZE then
    (w, DRESULT.RES_OK, BLOCK_SIZE % 2 ^ 16)
  else if ctrl = GET_BLOCK_SIZE then
    (w, DRESULT.RES_ERROR, BLOCK_SIZE % 2 ^ 32)
  else
    (w, DRESULT.RES_PARERR, buff)

/-- The function `get_fattime` (lines 225-228): it touches no state. -/
def get_fattime (w : World σ) : World σ × Nat :=
  (w, 0)

/-! ## Sequences of calls -/

/-- One call of the filesystem library into the glue, with its arguments. -/
inductive Op
  | init (pdrv : Nat)
  | status (pdrv : Nat)
  | read (pdrv : Nat) (buff : List Nat) (sector count : Nat)
  | write (pdrv : Nat) (buff : List Nat) (sector count : Nat)
  | ioctl (pdrv ctrl buff : Nat)
  | fattime

/-- The world after one call. -/
def step (D : Driver σ) (w : World σ) : Op → World σ
  | Op.init pdrv => ( disk_initialize D pdrv w).1
  | Op.status pdrv => (disk_status D pdrv w).1
  | Op.read pdrv buff sector count => (disk_read D pdrv buff sector count w).1
  | Op.write pdrv buff sector count => (disk_write D pdrv buff sector count w).1
  | Op.ioctl pdrv ctrl buff => (disk_ioctl D pdrv ctrl buff w).1
  | Op.fattime => (get_fattime w).1

/-- The world after a sequence of calls, first call first. -/
def run (D : Driver σ) (w : World σ) (ops : List Op) : World σ :=
  ops.foldl (step D) w

/-- The state at start-up: `Stat` as its initialiser sets it (line 44), no
driver call made yet. -/
def initial (s : σ) : World σ :=
  { Stat := STA_NOINIT, drv := s, calls := [] }

/-! ## A scripted card, for concrete runs -/

/-- State of the scripted card: the presence values the coming `SD_Status`
calls will publish, the current `SdStatus`, the codes its functions return and
the capacity it reports. -/
structure Card where
  script : List Nat
  SdStatus : Nat
  initCode : Nat
  statCode : Nat
  rwCode : Nat
  capacity : Nat

/-- A driver over the scripted card, with `MSD_OK = 0` and `SD_PRESENT = 1`:
every `SD_Status` call publishes the next value of the script (0 once the
script is used up); a read fills the buffer with zeros. -/
def cardDriver : Driver Card where
  MSD_OK := 0
  SD_PRESENT := 1
  SdStatus := fun c => c.SdStatus
  SD_Status := fun c => { c with script := c.script.tail, SdStatus := c.script.headD 0 }
  SD_Init := fun c => (c, c.initCode)
  SD_GetStatus := fun c => (c, c.statCode)
  SD_ReadBlocks := fun c buff _ _ _ => (c, buff.map (fun _ => 0), c.rwCode)
  SD_WriteBlocks := fun c _ _ _ _ => (c, c.rwCode)
  SD_GetCardInfo := fun c => (c, c.capacity)

/-- A scripted card that answers the given presence values and whose functions
return the given codes. -/
def card (script : List Nat) (initCode statCode rwCode capacity : Nat) : Card :=
  { script := script, SdStatus := 0, initCode := initCode, statCode := statCode,
    rwCode := rwCode, capacity := capacity }

/-! ## Basic facts -/

theorem clear_NOINIT_of_NOINIT : clear_NOINIT STA_NOINIT = 0 := by decide

theorem call_SD_Status_Stat (D : Driver σ) (w : World σ) :
    (call_SD_Status D w).Stat = w.Stat := rfl

theorem call_SD_Status_drv (D : Driver σ) (w : World σ) :
    (call_SD_Status D w).drv = D.SD_Status w.drv := rfl

theorem call_SD_Status_calls (D : Driver σ) (w : World σ) :
    (call_SD_Status D w).calls = w.calls ++ [Call.SD_Status] := rfl

/-- What `disk_initialize` returns, in one equation. -/
theorem disk_initialize_result (D : Driver σ) (pdrv : Nat) (w : World σ) :
    ( disk_initialize D pdrv w).2 =
      if D.SdStatus (D.SD_Status w.drv) = D.SD_PRESENT ∧
          (D.SD_Init (D.SD_Status w.drv)).2 = D.MSD_OK then 0 else STA_NOINIT := by
  unfold disk_initialize
  by_cases hp : D.SdStatus (D.SD_Status w.drv) = D.SD_PRESENT
  · by_cases hi : (D.SD_Init (D.SD_Status w.drv)).2 = D.MSD_OK
    · simp [call_SD_Status, call_SD_Init, hp, hi, clear_NOINIT_of_NOINIT]
    · simp [call_SD_Status, call_SD_Init, hp, hi]
  · simp [call_SD_Status, hp]

/-- The global `Stat` after `disk_initialize` is the value returned. -/
theorem disk_initialize_Stat (D : Driver σ) (pdrv : Nat) (w : World σ) :
    ( disk_initialize D pdrv w).1.Stat = ( disk_initialize D pdrv w).2 := by
  unfold disk_initialize
  by_cases hp : D.SdStatus (D.SD_Status w.drv) = D.SD_PRESENT
  · by_cases hi : (D.SD_Init (D.SD_Status w.drv)).2 = D.MSD_OK
    · simp [call_SD_Status, call_SD_Init, hp, hi]
    · simp [call_SD_Status, call_SD_Init, hp, hi]
  · simp [call_SD_Status, hp]

/-- The driver calls `disk_initialize` makes. -/
theorem disk_initialize_calls (D : Driver σ) (pdrv : Nat) (w : World σ) :
    ( disk_initialize D pdrv w).1.calls =
      w.calls ++ Call.SD_Status ::
        (if D.SdStatus (D.SD_Status w.drv) = D.SD_PRESENT then [Call.SD_Init] else []) := by
  unfold disk_initialize
  by_cases hp : D.SdStatus (D.SD_Status w.drv) = D.SD_PRESENT
  · by_cases hi : (D.SD_Init (D.SD_Status w.drv)).2 = D.MSD_OK
    · simp [call_SD_Status, call_SD_Init, hp, hi]
    · simp [call_SD_Status, call_SD_Init, hp, hi]
  · simp [call_SD_Status, hp]

/-- What `disk_status` returns, in one equation. -/
theorem disk_status_result (D : Driver σ) (pdrv : Nat) (w : World σ) :
    (disk_status D pdrv w).2 =
      if D.SdStatus (D.SD_Status w.drv) = D.SD_PRESENT ∧
          (D.SD_GetStatus (D.SD_Status w.drv)).2 = D.MSD_OK then 0 else STA_NOINIT := by
  unfold disk_status
  by_cases hp : D.SdStatus (D.SD_Status w.drv) = D.SD_PRESENT
  · by_cases hi : (D.SD_GetStatus (D.SD_Status w.drv)).2 = D.MSD_OK
    · simp [call_SD_Status, call_SD_GetStatus, hp, hi, clear_NOINIT_of_NOINIT]
    · simp [call_SD_Status, call_SD_GetStatus, hp, hi]
  · simp [call_SD_Status, hp]

/-- The global `Stat` after `disk_status` is the value returned. -/
theorem disk_status_Stat (D : Driver σ) (pdrv : Nat) (w : World σ) :
    (disk_status D pdrv w).1.Stat = (disk_status D pdrv w).2 := by
  unfold disk_status
  by_cases hp : D.SdStatus (D.SD_Status w.drv) = D.SD_PRESENT
  · by_cases hi : (D.SD_GetStatus (D.SD_Status w.drv)).2 = D.MSD_OK
    · simp [call_SD_Status, call_SD_GetStatus, hp, hi]
    · simp [call_SD_Status, call_SD_GetStatus, hp, hi]
  · simp [call_SD_Status, hp]

/-- The function `disk_read` leaves `Stat` alone. -/
theorem disk_read_Stat (D : Driver σ) (pdrv : Nat) (buff : List Nat) (sector count : Nat)
    (w : World σ) : (disk_read D pdrv buff sector count w).1.Stat = w.Stat := by
  unfold disk_read
  by_cases hp : D.SdStatus (D.SD_Status w.drv) = D.SD_PRESENT
  · by_cases hr : (D.SD_ReadBlocks (D.SD_Status w.drv) buff (byte_offset sector)
        BLOCK_SIZE count).2.2 = D.MSD_OK
    · simp [call_SD_Status, call_SD_ReadBlocks, hp, hr]
    · simp [call_SD_Status, call_SD_ReadBlocks, hp, hr]
  · simp [call_SD_Status, hp]

/-- The function `disk_write` leaves `Stat` alone. -/
theorem disk_write_Stat (D : Driver σ) (pdrv : Nat) (buff : List Nat) (sector count : Nat)
    (w : World σ) : (disk_write D pdrv buff sector count w).1.Stat = w.Stat := by
  unfold disk_write
  by_cases hp : D.SdStatus (D.SD_Status w.drv) = D.SD_PRESENT
  · by_cases hr : (D.SD_WriteBlocks (D.SD_Status w.drv) buff (byte_offset sector)
        BLOCK_SIZE count).2 = D.MSD_OK
    · simp [call_SD_Status, call_SD_WriteBlocks, hp, hr]
    · simp [call_SD_Status, call_SD_WriteBlocks, hp, hr]
  · simp [call_SD_Status, hp]

/-- The function `disk_ioctl` leaves `Stat` alone. -/
theorem disk_ioctl_Stat (D : Driver σ) (pdrv ctrl buff : Nat) (w : World σ) :
    (disk_ioctl D pdrv ctrl buff w).1.Stat = w.Stat := by
  unfold disk_ioctl
  by_cases hp : D.SdStatus (D.SD_Status w.drv) = D.SD_PRESENT
  · split_ifs <;> simp [call_SD_Status, call_SD_GetCardInfo, hp]
  · split_ifs <;> simp [call_SD_Status, call_SD_GetCardInfo, hp]

/-- One call keeps `Stat` among 0 and `STA_NOINIT`. -/
theorem step_Stat (D : Driver σ) (w : World σ) (op : Op)
    (h : w.Stat = 0 ∨ w.Stat = STA_NOINIT) :
    (step D w op).Stat = 0 ∨ (step D w op).Stat = STA_NOINIT := by
  cases op with
  | init pdrv =>
    simp only [step, disk_initialize_Stat, disk_initialize_result]
    split_ifs
    · exact Or.inl rfl
    · exact Or.inr rfl
  | status pdrv =>
    simp only [step, disk_status_Stat, disk_status_result]
    split_ifs
    · exact Or.inl rfl
    · exact Or.inr rfl
  | read pdrv buff sector count => simpa only [step, disk_read_Stat] using h
  | write pdrv buff sector count => simpa only [step, disk_write_Stat] using h
  | ioctl pdrv ctrl buff => simpa only [step, disk_ioctl_Stat] using h
  | fattime => simpa only [step, get_fattime] using h

/-- A sequence of calls keeps `Stat` among 0 and `STA_NOINIT`. -/
theorem run_Stat (D : Driver σ) (ops : List Op) (w : World σ)
    (h : w.Stat = 0 ∨ w.Stat = STA_NOINIT) :
    (run D w ops).Stat = 0 ∨ (run D w ops).Stat = STA_NOINIT := by
  induction ops generalizing w with
  | nil => simpa [run] using h
  | cons op ops ih =>
    have := ih (step D w op) (step_Stat D w op h)
    simpa [run] using this

/-- The driver calls `disk_read` makes when the card is present: the status
poll, then one block read at `byte_offset sector` with block size 512 and the
caller's count. -/
theorem disk_read_calls_present (D : Driver σ) (pdrv : Nat) (buff : List Nat)
    (sector count : Nat) (w : World σ)
    (hp : D.SdStatus (D.SD_Status w.drv) = D.SD_PRESENT) :
    (disk_read D pdrv buff sector count w).1.calls =
      w.calls ++ [Call.SD_Status, Call.SD_ReadBlocks (byte_offset sector) 512 count] := by
  unfold disk_read
  simp only [call_SD_Status, call_SD_ReadBlocks, hp, if_true, BLOCK_SIZE]
  split_ifs <;> simp

/-- The driver calls `disk_write` makes when the card is present. -/
theorem disk_write_calls_present (D : Driver σ) (pdrv : Nat) (buff : List Nat)
    (sector count : Nat) (w : World σ)
    (hp : D.SdStatus (D.SD_Status w.drv) = D.SD_PRESENT) :
    (disk_write D pdrv buff sector count w).1.calls =
      w.calls ++ [Call.SD_Status, Call.SD_WriteBlocks (byte_offset sector) 512 count] := by
  unfold disk_write
  simp only [call_SD_Status, call_SD_WriteBlocks, hp, if_true, BLOCK_SIZE]
  split_ifs <;> simp

/-- The offset is the 32-bit product. -/
theorem byte_offset_eq (sector : Nat) : byte_offset sector = (sector * 512) % 2 ^ 32 := by
  unfold byte_offset BLOCK_SIZE
  exact Nat.mod_eq_of_lt (lt_of_lt_of_le (Nat.mod_lt _ (by norm_num)) (by norm_num))

/-- Below sector 2^23 the offset is the exact product. -/
theorem byte_offset_exact (sector : Nat) (h : sector < 2 ^ 23) :
    byte_offset sector = sector * 512 := by
  rw [byte_offset_eq]
  exact Nat.mod_eq_of_lt (by omega)

/-- What `disk_ioctl` does in the not-ready state. -/
theorem disk_ioctl_not_ready (D : Driver σ) (pdrv ctrl buff : Nat) (w : World σ)
    (h : w.Stat &&& STA_NOINIT ≠ 0) :
    disk_ioctl D pdrv ctrl buff w = (w, DRESULT.RES_NOTRDY, buff) := by
  unfold disk_ioctl
  rw [if_pos h]

/-! ## The claims -/

/-- C1, as the code has it: for every drive id and every driver behaviour,
`disk_initialize` returns a status with the NOINIT bit cleared if and only if
the device reports present after `SD_Status()` and `SD_Init()` returns
`MSD_OK`. -/
theorem C1_initialize_clears_NOINIT_iff_present_and_init_ok
    (D : Driver σ) (pdrv : Nat) (w : World σ) :
    (( disk_initialize D pdrv w).2 &&& STA_NOINIT = 0) ↔
      (D.SdStatus (D.SD_Status w.drv) = D.SD_PRESENT ∧
        (D.SD_Init (D.SD_Status w.drv)).2 = D.MSD_OK) := by
  rw [disk_initialize_result]
  by_cases h : D.SdStatus (D.SD_Status w.drv) = D.SD_PRESENT ∧
      (D.SD_Init (D.SD_Status w.drv)).2 = D.MSD_OK
  · simp [h]
  · simp only [h, if_false, iff_false]
    decide

/-- C1, as the spec words it, fails: a card that reports present but whose
`SD_Init()` returns an error code leaves the NOINIT bit set, so "NOINIT cleared
iff present" is false for it. -/
theorem C1_present_but_NOINIT_set :
    ¬ ((( disk_initialize cardDriver 0 (initial (card [1] 1 0 0 0))).2 &&& STA_NOINIT = 0) ↔
        cardDriver.SdStatus (cardDriver.SD_Status (initial (card [1] 1 0 0 0)).drv)
          = cardDriver.SD_PRESENT) := by
  decide

/-- C2: for every buffer, start sector and sector count, when the device
reports absent after `SD_Status()`, `disk_read` and `disk_write` return
`RES_ERROR`, the only driver call made is the `SD_Status()` poll (no
`SD_ReadBlocks` / `SD_WriteBlocks`), and the read buffer is left as it was. -/
theorem C2_read_write_error_when_absent
    (D : Driver σ) (pdrv : Nat) (buff : List Nat) (sector count : Nat) (w : World σ)
    (habsent : D.SdStatus (D.SD_Status w.drv) ≠ D.SD_PRESENT) :
    (disk_read D pdrv buff sector count w).2.1 = DRESULT.RES_ERROR ∧
    (disk_read D pdrv buff sector count w).1.calls = w.calls ++ [Call.SD_Status] ∧
    (disk_read D pdrv buff sector count w).2.2 = buff ∧
    (disk_write D pdrv buff sector count w).2 = DRESULT.RES_ERROR ∧
    (disk_write D pdrv buff sector count w).1.calls = w.calls ++ [Call.SD_Status] := by
  unfold disk_read disk_write
  simp [call_SD_Status, habsent]

/-- C2 at a concrete input: a card that reports absent. -/
theorem C2_read_write_error_when_absent_witness :
    cardDriver.SdStatus (cardDriver.SD_Status (initial (card [0] 0 0 0 0)).drv)
        ≠ cardDriver.SD_PRESENT ∧
    (disk_read cardDriver 0 [7, 7] 5 1 (initial (card [0] 0 0 0 0))).2.1 = DRESULT.RES_ERROR ∧
    (disk_read cardDriver 0 [7, 7] 5 1 (initial (card [0] 0 0 0 0))).1.calls
        = [] ++ [Call.SD_Status] ∧
    (disk_read cardDriver 0 [7, 7] 5 1 (initial (card [0] 0 0 0 0))).2.2 = [7, 7] ∧
    (disk_write cardDriver 0 [7, 7] 5 1 (initial (card [0] 0 0 0 0))).2 = DRESULT.RES_ERROR ∧
    (disk_write cardDriver 0 [7, 7] 5 1 (initial (card [0] 0 0 0 0))).1.calls
        = [] ++ [Call.SD_Status] :=
  ⟨by decide,
   C2_read_write_error_when_absent cardDriver 0 [7, 7] 5 1 (initial (card [0] 0 0 0 0))
     (by decide)⟩

/-- C3, as the code has it: for every value of `Stat` in which the NOINIT bit
is clear, and every device presence state, `disk_ioctl` with GET_SECTOR_SIZE
stores 512 in the caller's buffer and returns `RES_OK`; the driver is not
consulted and the world is left as it was. -/
theorem C3_get_sector_size_when_initialised
    (D : Driver σ) (pdrv buff : Nat) (w : World σ)
    (hinit : w.Stat &&& STA_NOINIT = 0) :
    disk_ioctl D pdrv GET_SECTOR_SIZE buff w = (w, DRESULT.RES_OK, 512) := by
  unfold disk_ioctl
  simp [hinit, GET_SECTOR_SIZE, CTRL_SYNC, GET_SECTOR_COUNT, BLOCK_SIZE]

/-- C3 at a concrete input: an initialised drive whose card has since been
removed still answers 512. -/
theorem C3_get_sector_size_when_initialised_witness :
    disk_ioctl cardDriver 0 GET_SECTOR_SIZE 0
        ({ Stat := 0, drv := card [0] 0 0 0 0, calls := [] } : World Card)
      = ({ Stat := 0, drv := card [0] 0 0 0 0, calls := [] }, DRESULT.RES_OK, 512) :=
  C3_get_sector_size_when_initialised cardDriver 0 0
    { Stat := 0, drv := card [0] 0 0 0 0, calls := [] } (by decide)

/-- C3, as the spec words it, fails: in the start-up state (`Stat` =
`STA_NOINIT`) GET_SECTOR_SIZE returns `RES_NOTRDY` and leaves the caller's
buffer (here 0) as it was, whatever the card reports. -/
theorem C3_get_sector_size_not_ready :
    (disk_ioctl cardDriver 0 GET_SECTOR_SIZE 0 (initial (card [1] 0 0 0 0))).2
        = (DRESULT.RES_NOTRDY, 0) ∧
    ¬ ((disk_ioctl cardDriver 0 GET_SECTOR_SIZE 0 (initial (card [1] 0 0 0 0))).2.1
          = DRESULT.RES_OK ∧
        (disk_ioctl cardDriver 0 GET_SECTOR_SIZE 0 (initial (card [1] 0 0 0 0))).2.2 = 512) := by
  decide

/-- C4, what the code does: for every 32-bit start sector, when the device is
present, `disk_read` and `disk_write` hand the driver the byte offset
`sector * 512` reduced modulo 2^32 (the product is formed in 32 bits before it
is widened), with block size 512 and the caller's sector count unchanged; the
offset is the mathematical product exactly when `sector < 2^23`. -/
theorem C4_offset_is_product_mod_2_pow_32
    (D : Driver σ) (pdrv : Nat) (buff : List Nat) (sector count : Nat) (w : World σ)
    (hsector : sector < 2 ^ 32)
    (hp : D.SdStatus (D.SD_Status w.drv) = D.SD_PRESENT) :
    (disk_read D pdrv buff sector count w).1.calls =
      w.calls ++ [Call.SD_Status, Call.SD_ReadBlocks ((sector * 512) % 2 ^ 32) 512 count] ∧
    (disk_write D pdrv buff sector count w).1.calls =
      w.calls ++ [Call.SD_Status, Call.SD_WriteBlocks ((sector * 512) % 2 ^ 32) 512 count] ∧
    ((sector * 512) % 2 ^ 32 = sector * 512 ↔ sector < 2 ^ 23) := by
  refine ⟨?_, ?_, ?_⟩
  · rw [disk_read_calls_present D pdrv buff sector count w hp, byte_offset_eq]
  · rw [disk_write_calls_present D pdrv buff sector count w hp, byte_offset_eq]
  · constructor
    · intro h
      by_contra hge
      have h1 : (sector * 512) % 2 ^ 32 < 2 ^ 32 := Nat.mod_lt _ (by norm_num)
      omega
    · intro h
      exact Nat.mod_eq_of_lt (by omega)

/-- C4 at the failing input: start sector 8388608 (= 2^23) on a present card.
The driver is handed byte offset 0, whereas 8388608 * 512 = 4294967296. -/
theorem C4_offset_wraps_at_sector_8388608 :
    (8388608 < 2 ^ 32) ∧
    cardDriver.SdStatus (cardDriver.SD_Status (initial (card [1] 0 0 0 0)).drv)
        = cardDriver.SD_PRESENT ∧
    (disk_read cardDriver 0 [] 8388608 1 (initial (card [1] 0 0 0 0))).1.calls
        = [Call.SD_Status, Call.SD_ReadBlocks 0 512 1] ∧
    (disk_write cardDriver 0 [] 8388608 1 (initial (card [1] 0 0 0 0))).1.calls
        = [Call.SD_Status, Call.SD_WriteBlocks 0 512 1] ∧
    8388608 * 512 = 4294967296 :=
  ⟨by decide, by decide,
   (C4_offset_is_product_mod_2_pow_32 cardDriver 0 [] 8388608 1 (initial (card [1] 0 0 0 0))
      (by decide) (by decide)).1,
   (C4_offset_is_product_mod_2_pow_32 cardDriver 0 [] 8388608 1 (initial (card [1] 0 0 0 0))
      (by decide) (by decide)).2.1,
   by decide⟩

/-- C5, what the code does: when the drive is initialised (NOINIT clear in
`Stat`), `disk_ioctl` with GET_BLOCK_SIZE stores 512 in the caller's buffer but
returns `RES_ERROR`, not `RES_OK`: the case never assigns `res`. -/
theorem C5_get_block_size_returns_error
    (D : Driver σ) (pdrv buff : Nat) (w : World σ)
    (hinit : w.Stat &&& STA_NOINIT = 0) :
    disk_ioctl D pdrv GET_BLOCK_SIZE buff w = (w, DRESULT.RES_ERROR, 512) := by
  unfold disk_ioctl
  simp [hinit, GET_BLOCK_SIZE, GET_SECTOR_SIZE, CTRL_SYNC, GET_SECTOR_COUNT, BLOCK_SIZE]

/-- C5 at the failing input: an initialised drive with a present card. -/
theorem C5_get_block_size_returns_error_witness :
    (disk_ioctl cardDriver 0 GET_BLOCK_SIZE 0
        ({ Stat := 0, drv := card [1] 0 0 0 0, calls := [] } : World Card)).2
      = (DRESULT.RES_ERROR, 512) :=
  congrArg Prod.snd
    (C5_get_block_size_returns_error cardDriver 0 0
      { Stat := 0, drv := card [1] 0 0 0 0, calls := [] } (by decide))

/-- C6: when the drive is initialised (NOINIT clear in `Stat`), `disk_ioctl`
with GET_SECTOR_COUNT polls the card; if it reports present the glue asks for
the card information, stores the reported byte capacity divided by 512 through
the `DWORD` pointer and returns `RES_OK` (the stored value is the quotient
itself for every capacity below 2^41 bytes, hence for every value of a 32-bit
capacity field); if it reports absent the glue returns `RES_ERROR`, leaves the
buffer unchanged and does not ask for the card information. -/
theorem C6_get_sector_count
    (D : Driver σ) (pdrv buff : Nat) (w : World σ)
    (hinit : w.Stat &&& STA_NOINIT = 0) :
    (D.SdStatus (D.SD_Status w.drv) = D.SD_PRESENT →
      (disk_ioctl D pdrv GET_SECTOR_COUNT buff w).2
        = (DRESULT.RES_OK, ((D.SD_GetCardInfo (D.SD_Status w.drv)).2 / 512) % 2 ^ 32) ∧
      (disk_ioctl D pdrv GET_SECTOR_COUNT buff w).1.calls
        = w.calls ++ [Call.SD_Status, Call.SD_GetCardInfo] ∧
      ((D.SD_GetCardInfo (D.SD_Status w.drv)).2 < 2 ^ 41 →
        (disk_ioctl D pdrv GET_SECTOR_COUNT buff w).2
          = (DRESULT.RES_OK, (D.SD_GetCardInfo (D.SD_Status w.drv)).2 / 512))) ∧
    (D.SdStatus (D.SD_Status w.drv) ≠ D.SD_PRESENT →
      (disk_ioctl D pdrv GET_SECTOR_COUNT buff w).2 = (DRESULT.RES_ERROR, buff) ∧
      (disk_ioctl D pdrv GET_SECTOR_COUNT buff w).1.calls = w.calls ++ [Call.SD_Status]) := by
  unfold disk_ioctl
  constructor
  · intro hp
    simp only [hinit, GET_SECTOR_COUNT, CTRL_SYNC, BLOCK_SIZE, call_SD_Status,
      call_SD_GetCardInfo, hp]
    refine ⟨by simp, by simp, ?_⟩
    intro hcap
    have hq : (D.SD_GetCardInfo (D.SD_Status w.drv)).2 / 512 < 4294967296 := by omega
    simp [Nat.mod_eq_of_lt hq]
  · intro hp
    simp [hinit, GET_SECTOR_COUNT, CTRL_SYNC, call_SD_Status, hp]

/-- C6 at concrete inputs: an initialised drive with a present card of
1073741824 bytes reports 2097152 sectors; with the card removed the call fails
and the buffer keeps its 99. -/
theorem C6_get_sector_count_witness :
    (disk_ioctl cardDriver 0 GET_SECTOR_COUNT 99
        ({ Stat := 0, drv := card [1] 0 0 0 1073741824, calls := [] } : World Card)).2
      = (DRESULT.RES_OK, 2097152) ∧
    (disk_ioctl cardDriver 0 GET_SECTOR_COUNT 99
        ({ Stat := 0, drv := card [0] 0 0 0 1073741824, calls := [] } : World Card)).2
      = (DRESULT.RES_ERROR, 99) :=
  ⟨((C6_get_sector_count cardDriver 0 99
        { Stat := 0, drv := card [1] 0 0 0 1073741824, calls := [] } (by decide)).1
      (by decide)).2.2 (by decide),
   ((C6_get_sector_count cardDriver 0 99
        { Stat := 0, drv := card [0] 0 0 0 1073741824, calls := [] } (by decide)).2
      (by decide)).1⟩

/-- C7: for every prior value of `Stat`, `disk_initialize` returns 0 exactly
when the device reports present and `SD_Init()` returns `MSD_OK`, and returns
exactly `STA_NOINIT` in every other case; the global `Stat` afterwards is the
value returned; the driver calls made are the `SD_Status()` poll followed by
`SD_Init()` only if the device reported present. -/
theorem C7_initialize_ready_only_after_init_ok
    (D : Driver σ) (pdrv : Nat) (w : World σ) :
    (( disk_initialize D pdrv w).2 = 0 ↔
      (D.SdStatus (D.SD_Status w.drv) = D.SD_PRESENT ∧
        (D.SD_Init (D.SD_Status w.drv)).2 = D.MSD_OK)) ∧
    (( disk_initialize D pdrv w).2 =
      if D.SdStatus (D.SD_Status w.drv) = D.SD_PRESENT ∧
          (D.SD_Init (D.SD_Status w.drv)).2 = D.MSD_OK then 0 else STA_NOINIT) ∧
    ( disk_initialize D pdrv w).1.Stat = ( disk_initialize D pdrv w).2 ∧
    ( disk_initialize D pdrv w).1.calls =
      w.calls ++ Call.SD_Status ::
        (if D.SdStatus (D.SD_Status w.drv) = D.SD_PRESENT then [Call.SD_Init] else []) := by
  refine ⟨?_, disk_initialize_result D pdrv w, disk_initialize_Stat D pdrv w,
    disk_initialize_calls D pdrv w⟩
  rw [disk_initialize_result]
  by_cases h : D.SdStatus (D.SD_Status w.drv) = D.SD_PRESENT ∧
      (D.SD_Init (D.SD_Status w.drv)).2 = D.MSD_OK
  · simp [h]
  · simp only [h, if_false, iff_false]
    decide

/-- C7 at concrete inputs, each from a prior `Stat` of 0: a present card whose
`SD_Init()` succeeds gives 0; a present card whose `SD_Init()` fails gives
`STA_NOINIT`; an absent card gives `STA_NOINIT` without `SD_Init()` being
called. -/
theorem C7_initialize_ready_only_after_init_ok_witness :
    ( disk_initialize cardDriver 0
        ({ Stat := 0, drv := card [1] 0 0 0 0, calls := [] } : World Card)).2 = 0 ∧
    ( disk_initialize cardDriver 0
        ({ Stat := 0, drv := card [1] 1 0 0 0, calls := [] } : World Card)).2 = STA_NOINIT ∧
    ( disk_initialize cardDriver 0
        ({ Stat := 0, drv := card [0] 0 0 0 0, calls := [] } : World Card)).2 = STA_NOINIT ∧
    ( disk_initialize cardDriver 0
        ({ Stat := 0, drv := card [0] 0 0 0 0, calls := [] } : World Card)).1.calls
      = [Call.SD_Status] :=
  ⟨(C7_initialize_ready_only_after_init_ok cardDriver 0
      { Stat := 0, drv := card [1] 0 0 0 0, calls := [] }).2.1,
   (C7_initialize_ready_only_after_init_ok cardDriver 0
      { Stat := 0, drv := card [1] 1 0 0 0, calls := [] }).2.1,
   (C7_initialize_ready_only_after_init_ok cardDriver 0
      { Stat := 0, drv := card [0] 0 0 0 0, calls := [] }).2.1,
   (C7_initialize_ready_only_after_init_ok cardDriver 0
      { Stat := 0, drv := card [0] 0 0 0 0, calls := [] }).2.2.2⟩

/-- C8: for every prior value of `Stat`, `disk_status` returns 0 exactly when
the device reports present and `SD_GetStatus()` returns `MSD_OK`, returns
`STA_NOINIT` otherwise, and the global `Stat` afterwards equals the value
returned; hence, whatever came before (a successful `disk_initialize`
included), after a status query on a missing or failing card every
`disk_ioctl` returns `RES_NOTRDY`. -/
theorem C8_status_recomputes_flag
    (D : Driver σ) (pdrv : Nat) (w : World σ) :
    ((disk_status D pdrv w).2 = 0 ↔
      (D.SdStatus (D.SD_Status w.drv) = D.SD_PRESENT ∧
        (D.SD_GetStatus (D.SD_Status w.drv)).2 = D.MSD_OK)) ∧
    ((disk_status D pdrv w).2 =
      if D.SdStatus (D.SD_Status w.drv) = D.SD_PRESENT ∧
          (D.SD_GetStatus (D.SD_Status w.drv)).2 = D.MSD_OK then 0 else STA_NOINIT) ∧
    (disk_status D pdrv w).1.Stat = (disk_status D pdrv w).2 ∧
    (¬ (D.SdStatus (D.SD_Status w.drv) = D.SD_PRESENT ∧
          (D.SD_GetStatus (D.SD_Status w.drv)).2 = D.MSD_OK) →
      ∀ pdrv2 ctrl buff : Nat,
        (disk_ioctl D pdrv2 ctrl buff (disk_status D pdrv w).1).2
          = (DRESULT.RES_NOTRDY, buff)) := by
  refine ⟨?_, disk_status_result D pdrv w, disk_status_Stat D pdrv w, ?_⟩
  · rw [disk_status_result]
    by_cases h : D.SdStatus (D.SD_Status w.drv) = D.SD_PRESENT ∧
        (D.SD_GetStatus (D.SD_Status w.drv)).2 = D.MSD_OK
    · simp [h]
    · simp only [h, if_false, iff_false]
      decide
  · intro h pdrv2 ctrl buff
    have hs : (disk_status D pdrv w).1.Stat = STA_NOINIT := by
      rw [disk_status_Stat, disk_status_result, if_neg h]
    rw [disk_ioctl_not_ready D pdrv2 ctrl buff _ (by rw [hs]; decide)]

/-- C8 at a concrete run: the card is present for `disk_initialize`, which
returns 0, and gone at the following `disk_status`, which returns
`STA_NOINIT`; the sync command issued next is answered `RES_NOTRDY`. -/
theorem C8_status_recomputes_flag_witness :
    ( disk_initialize cardDriver 0 (initial (card [1, 0] 0 0 0 0))).2 = 0 ∧
    (disk_status cardDriver 0
        ( disk_initialize cardDriver 0 (initial (card [1, 0] 0 0 0 0))).1).2 = STA_NOINIT ∧
    (disk_ioctl cardDriver 0 CTRL_SYNC 0
        (disk_status cardDriver 0
          ( disk_initialize cardDriver 0 (initial (card [1, 0] 0 0 0 0))).1).1).2
      = (DRESULT.RES_NOTRDY, 0) :=
  ⟨by decide,
   (C8_status_recomputes_flag cardDriver 0
      ( disk_initialize cardDriver 0 (initial (card [1, 0] 0 0 0 0))).1).2.1,
   (C8_status_recomputes_flag cardDriver 0
      ( disk_initialize cardDriver 0 (initial (card [1, 0] 0 0 0 0))).1).2.2.2
      (by decide) 0 CTRL_SYNC 0⟩

/-- C9: for every command code and every buffer, if the NOINIT bit is set in
`Stat` then `disk_ioctl` returns `RES_NOTRDY` and leaves the caller's buffer,
`Stat`, the driver state and the list of driver calls as they were (so an
unknown command yields `RES_NOTRDY`, not `RES_PARERR`); and `RES_PARERR` is
returned exactly for a command other than the four known ones while the NOINIT
bit is clear. -/
theorem C9_not_ready_takes_precedence
    (D : Driver σ) (pdrv ctrl buff : Nat) (w : World σ) :
    (w.Stat &&& STA_NOINIT ≠ 0 →
      disk_ioctl D pdrv ctrl buff w = (w, DRESULT.RES_NOTRDY, buff)) ∧
    ((disk_ioctl D pdrv ctrl buff w).2.1 = DRESULT.RES_PARERR ↔
      (w.Stat &&& STA_NOINIT = 0 ∧ ctrl ≠ CTRL_SYNC ∧ ctrl ≠ GET_SECTOR_COUNT ∧
        ctrl ≠ GET_SECTOR_SIZE ∧ ctrl ≠ GET_BLOCK_SIZE)) := by
  refine ⟨disk_ioctl_not_ready D pdrv ctrl buff w, ?_⟩
  unfold disk_ioctl
  by_cases hp : D.SdStatus (D.SD_Status w.drv) = D.SD_PRESENT
  · split_ifs <;> simp_all [call_SD_Status, call_SD_GetCardInfo]
  · split_ifs <;> simp_all [call_SD_Status, call_SD_GetCardInfo]

/-- C9 at concrete inputs: in the start-up state the unknown command 200 is
answered `RES_NOTRDY` with nothing changed, and the same command on an
initialised drive is answered `RES_PARERR`. -/
theorem C9_not_ready_takes_precedence_witness :
    disk_ioctl cardDriver 0 200 7 (initial (card [1] 0 0 0 0))
      = (initial (card [1] 0 0 0 0), DRESULT.RES_NOTRDY, 7) ∧
    (disk_ioctl cardDriver 0 200 7
        ({ Stat := 0, drv := card [1] 0 0 0 0, calls := [] } : World Card)).2.1
      = DRESULT.RES_PARERR :=
  ⟨(C9_not_ready_takes_precedence cardDriver 0 200 7 (initial (card [1] 0 0 0 0))).1
      (by decide),
   (C9_not_ready_takes_precedence cardDriver 0 200 7
      { Stat := 0, drv := card [1] 0 0 0 0, calls := [] }).2.2 (by decide)⟩

/-- C10: in every state reached from the start-up state (`Stat` =
`STA_NOINIT`) by any sequence of `disk_initialize`, `disk_status`,
`disk_read`, `disk_write`, `disk_ioctl` and `get_fattime` calls, under any
driver, `Stat` is 0 or exactly `STA_NOINIT`, so neither the NODISK nor the
PROTECT bit is set; and `disk_read`, `disk_write`, `disk_ioctl` and
`get_fattime` leave `Stat` as they found it. -/
theorem C10_Stat_is_zero_or_NOINIT
    (D : Driver σ) (s : σ) (ops : List Op) :
    ((run D (initial s) ops).Stat = 0 ∨ (run D (initial s) ops).Stat = STA_NOINIT) ∧
    (run D (initial s) ops).Stat &&& STA_NODISK = 0 ∧
    (run D (initial s) ops).Stat &&& STA_PROTECT = 0 ∧
    (∀ (w : World σ) (pdrv : Nat) (buff : List Nat) (sector count : Nat),
      (disk_read D pdrv buff sector count w).1.Stat = w.Stat) ∧
    (∀ (w : World σ) (pdrv : Nat) (buff : List Nat) (sector count : Nat),
      (disk_write D pdrv buff sector count w).1.Stat = w.Stat) ∧
    (∀ (w : World σ) (pdrv ctrl buff : Nat),
      (disk_ioctl D pdrv ctrl buff w).1.Stat = w.Stat) ∧
    (∀ w : World σ, (get_fattime w).1.Stat = w.Stat) := by
  have h := run_Stat D ops (initial s) (Or.inr rfl)
  refine ⟨h, ?_, ?_, ?_, ?_, ?_, ?_⟩
  · rcases h with h | h <;> rw [h] <;> decide
  · rcases h with h | h <;> rw [h] <;> decide
  · intro w pdrv buff sector count
    exact disk_read_Stat D pdrv buff sector count w
  · intro w pdrv buff sector count
    exact disk_write_Stat D pdrv buff sector count w
  · intro w pdrv ctrl buff
    exact disk_ioctl_Stat D pdrv ctrl buff w
  · intro w
    rfl

end FatFsGlue
